import Mathlib

/-!
Verification of the gemini-search-skill request pipeline.

The definitions below are a shallow embedding of `src/search.js`
(class `GeminiSearch`: constructor, `setModel`, `callGemini`, `search`,
`fetch`, `buildSearchPrompt`) and of the dispatch layer in `src/index.js`
(class `GeminiSearchSkill`: parameter validation in its `search` and
`fetch` methods).

Platform behavior that the JavaScript delegates to the host (the network
`fetch`, `JSON.parse`, WHATWG `new URL`, the wall clock) is abstracted as
explicit oracle parameters: a backend maps each attempt number to the raw
outcome of that attempt, a JSON-parse oracle maps a string to an optional
JSON value, a URL oracle reports whether a string parses as a URL.
Every repository-side branch (retry ladder, status ladder, validation,
decode fallback) is translated directly from the source.
-/

/-- Client configuration stored by the `GeminiSearch` constructor
(`src/search.js` lines 30-39). -/
structure Config where
  baseUrl : String
  apiKey : String
  model : String
  timeout : Nat
  retryAttempts : Nat
  retryDelay : Nat
deriving Repr, DecidableEq

/-- A JavaScript `Error`-like value as observed by the `catch` block of
`callGemini`: its `name`, `message` and optional `code` fields. -/
structure JsError where
  name : String
  message : String
  code : Option String
deriving Repr, DecidableEq

/-- The `message` object inside a choice of the completion response;
`content` is optional because the code never checks it
(`src/search.js` line 173 reads it unconditionally). -/
structure ChatMessage where
  content : Option String
deriving Repr, DecidableEq

/-- One element of the `choices` array of the completion response. -/
structure ChatChoice where
  message : Option ChatMessage
deriving Repr, DecidableEq

/-- The body of an HTTP-success response: either `response.json()` throws
(the body is not valid JSON), or it yields a value whose `choices` field
is absent or a list of choices. -/
inductive ChatBody where
  | parseError (e : JsError)
  | data (choices : Option (List ChatChoice))
deriving Repr, DecidableEq

/-- The raw outcome of one outbound attempt, as supplied by the platform:
either the attempt throws (`fetch` rejection, abort, or `response.json()`
failure) or it produces an HTTP response with a status, status text and
body. -/
inductive AttemptResult where
  | throws (e : JsError)
  | response (status : Nat) (statusText : String) (body : ChatBody)
deriving Repr, DecidableEq

/-- Outcome of a whole `callGemini` call: the returned content (possibly
absent, since `content` is never validated) or the thrown error message,
together with the number of outbound requests made and the list of
delays (in ms) inserted between attempts, in order. -/
structure CallOutcome where
  result : Except String (Option String)
  requests : Nat
  delays : List Nat
deriving Repr

/-- An `Error` thrown by the repository code itself: `name` is `Error`
and no `code` field is set. -/
def mkError (msg : String) : JsError :=
  ⟨("Error"), msg, none⟩

/-- Message of the error thrown on HTTP 401 (`src/search.js` line 141). -/
def authMsg : String := "Authentication failed: Invalid API key"

/-- Message of the error thrown when 429 retries are exhausted
(`src/search.js` line 150). -/
def rateMsg : String := "Rate limit exceeded: Too many requests"

/-- Message of the error thrown on a malformed response shape
(`src/search.js` line 168). -/
def invalidFormatMsg : String := "Invalid API response format: missing choices or message"

/-- Message of the generic status error (`src/search.js` line 161). -/
def statusMsg (status : Nat) (statusText : String) : String :=
  "API request failed with status " ++ toString status ++ ": " ++ statusText

/-- Message of the error thrown when timeout retries are exhausted
(`src/search.js` line 188). -/
def timeoutExhaustMsg (cfg : Config) : String :=
  "Request timeout after " ++ toString cfg.timeout ++ "ms and " ++
    toString cfg.retryAttempts ++ " attempts"

/-- Contiguous-sublist test on character lists. -/
def charsInfix : List Char → List Char → Bool
  | sub, [] => sub.isEmpty
  | sub, a :: as => sub.isPrefixOf (a :: as) || charsInfix sub as

/-- Substring test, mirroring JavaScript `String.prototype.includes`. -/
def strIncludes (hay sub : String) : Bool :=
  charsInfix sub.data hay.data

/-- The network-error recognition of the `catch` block
(`src/search.js` line 192): message contains `fetch failed` or
`network`, or the `code` is `ECONNRESET` or `ETIMEDOUT`. -/
def isNetworkRetryable (e : JsError) : Bool :=
  strIncludes e.message ("fetch failed") || strIncludes e.message ("network") ||
    e.code == some ("ECONNRESET") || e.code == some ("ETIMEDOUT")

/-- The delay inserted before the retry that follows failed attempt
`attempt`: `retryDelay * 2 ^ (attempt - 1)` (`src/search.js` lines
145, 154, 182, 194 all use this same formula). -/
def backoffDelay (cfg : Config) (attempt : Nat) : Nat :=
  cfg.retryDelay * 2 ^ (attempt - 1)

/-- Result of the `try` block of `callGemini` before the `catch` runs:
a successful content extraction, a retryable non-ok status (429 or 5xx;
`em` is the error message thrown if attempts are exhausted), or a thrown
error that the `catch` block will examine. -/
inductive TryOutcome where
  | success (content : Option String)
  | retryableStatus (em : String)
  | thrown (e : JsError)
deriving Repr, DecidableEq

/-- The `try` block of `callGemini` (`src/search.js` lines 118-173):
on an ok (2xx) response, parse the body and extract
`choices[0].message.content`, throwing on a missing shape; on a non-ok
response run the status ladder 401 / 429 / 5xx / other. Thrown errors
(including those the code throws itself) are handed to the catch logic. -/
def tryBlock (r : AttemptResult) : TryOutcome :=
  match r with
  | .throws e => .thrown e
  | .response status statusText body =>
    if 200 ≤ status ∧ status < 300 then
      match body with
      | .parseError e => .thrown e
      | .data choices =>
        match choices with
        | some (c :: _) =>
          match c.message with
          | some m => .success m.content
          | none => .thrown (mkError invalidFormatMsg)
        | _ => .thrown (mkError invalidFormatMsg)
    else if status = 401 then .thrown (mkError authMsg)
    else if status = 429 then .retryableStatus rateMsg
    else if 500 ≤ status then .retryableStatus (statusMsg status statusText)
    else .thrown (mkError (statusMsg status statusText))

/-- Whether this attempt ends the call (`finish`, with the call result)
or is followed by a retry (`retry`).  This combines the identical
`attempt < this.retryAttempts` checks of the four retry sites
(`src/search.js` lines 144, 153, 181, 193) with the per-cause
exhaustion results (lines 150, 161, 188, 201); `retry` also records the
result the call would end with were the bound already reached, so that
the fuel-zero branch of `callGeminiAux` can replicate it. -/
inductive StepDecision where
  | finish (res : Except String (Option String))
  | retry (exhaustRes : Except String (Option String))
deriving Repr

/-- The per-attempt decision of `callGemini`: the `catch` block of
`src/search.js` lines 174-202 applied to the `try` outcome.  An
`AbortError` is the timeout case (lines 177-188), a recognized network
error the transport case (lines 192-199), anything else is rethrown
(line 201); retryable statuses carry their exhaustion message from the
`try` block. -/
def stepDecision (cfg : Config) (t : TryOutcome) (attempt : Nat) : StepDecision :=
  match t with
  | .success v => .finish (.ok v)
  | .retryableStatus em =>
    if attempt < cfg.retryAttempts then .retry (.error em) else .finish (.error em)
  | .thrown e =>
    if e.name = "AbortError" then
      if attempt < cfg.retryAttempts then .retry (.error (timeoutExhaustMsg cfg))
      else .finish (.error (timeoutExhaustMsg cfg))
    else if isNetworkRetryable e then
      if attempt < cfg.retryAttempts then .retry (.error e.message)
      else .finish (.error e.message)
    else .finish (.error e.message)

/-- The recursive body of `GeminiSearch.callGemini`
(`src/search.js` lines 89-203), one invocation per attempt.  `backend`
maps each attempt number to the raw platform outcome of that attempt.
`fuel` bounds the recursion structurally; it only ever limits recursion
already bounded by the `attempt < retryAttempts` checks inside
`stepDecision`, and the entry point supplies enough fuel that the
fuel-zero branch (which replicates the exhaustion result carried by
`retry`) is never reached. -/
def callGeminiAux (cfg : Config) (backend : Nat → AttemptResult)
    (attempt : Nat) (fuel : Nat) : CallOutcome :=
  match stepDecision cfg (tryBlock (backend attempt)) attempt, fuel with
  | .finish res, _ => ⟨res, 1, []⟩
  | .retry _, fnext + 1 =>
    let rest := callGeminiAux cfg backend (attempt + 1) fnext
    ⟨rest.result, rest.requests + 1, backoffDelay cfg attempt :: rest.delays⟩
  | .retry exhaustRes, 0 => ⟨exhaustRes, 1, []⟩

/-- Entry point of `GeminiSearch.callGemini`: attempts start at 1. -/
def GeminiSearch.callGemini (cfg : Config) (backend : Nat → AttemptResult) : CallOutcome :=
  callGeminiAux cfg backend 1 cfg.retryAttempts

/-- The four retryable failure categories of the pipeline: a request
timeout (`AbortError`), a transport/network failure recognized by the
catch block, an HTTP 429 status, or an HTTP 5xx status. -/
def retryableFailure (r : AttemptResult) : Bool :=
  match r with
  | .throws e => e.name == "AbortError" || isNetworkRetryable e
  | .response status _ _ => status == 429 || (500 ≤ status && status ≤ 599)

/-- The message with which `callGemini` fails when attempts are
exhausted at an attempt whose raw outcome is `r` (only meaningful for
retryable failures): a timeout names the timeout and the attempt count,
a network error rethrows the original message, a 429 names the rate
limit, any other status uses the generic status message. -/
def exhaustMsgOf (cfg : Config) (r : AttemptResult) : String :=
  match r with
  | .throws e => if e.name = "AbortError" then timeoutExhaustMsg cfg else e.message
  | .response status statusText _ =>
    if status = 429 then rateMsg else statusMsg status statusText

/-- The trailing-slash normalization of the constructor
(`src/search.js` line 30): `baseUrl.replace(/\/$/, '')` removes one
final slash if present. -/
def stripTrailingSlash (s : String) : String :=
  match s.data.getLast? with
  | some c => if c = '/' then String.mk s.data.dropLast else s
  | none => s

/-- The outbound request target of `callGemini`
(`src/search.js` line 90). -/
def requestUrl (cfg : Config) : String :=
  cfg.baseUrl ++ "/v1/chat/completions"

/-- JavaScript `x || d` on an optional number: the default applies when
the value is absent or 0 (falsy). Used for the constructor defaults
(`src/search.js` lines 37-39). -/
def jsOrNat (v : Option Nat) (d : Nat) : Nat :=
  match v with
  | some n => if n = 0 then d else n
  | none => d

/-- JavaScript `x || d` on an optional string: the default applies when
the value is absent or empty (falsy). Used for the model default
(`src/search.js` line 36). -/
def jsOrStr (v : Option String) (d : String) : String :=
  match v with
  | some s => if s = "" then d else s
  | none => d

/-- Options object accepted by the `GeminiSearch` constructor. -/
structure CtorOptions where
  model : Option String
  timeout : Option Nat
  retryAttempts : Option Nat
  retryDelay : Option Nat

/-- The `GeminiSearch` constructor (`src/search.js` lines 16-40).
`parseProtocol` abstracts WHATWG `new URL`: it yields the protocol of
the parsed URL, or the message of the parse error.  A protocol other
than http/https throws inside the same `try`, so its message is wrapped
identically. -/
def GeminiSearch.mk (parseProtocol : String → Except String String)
    (baseUrl apiKey : String) (opts : CtorOptions) : Except String Config :=
  if baseUrl = "" then .error ("GEMINI_BASE_URL is required")
  else if apiKey = "" then .error ("GEMINI_API_KEY is required")
  else
    match parseProtocol baseUrl with
    | .error em => .error ("Invalid GEMINI_BASE_URL format: " ++ em)
    | .ok proto =>
      if proto = "http:" ∨ proto = "https:" then
        .ok ⟨stripTrailingSlash baseUrl, apiKey,
             jsOrStr opts.model ("gemini-2.5-flash-lite"),
             jsOrNat opts.timeout 30000,
             jsOrNat opts.retryAttempts 3,
             jsOrNat opts.retryDelay 1000⟩
      else .error ("Invalid GEMINI_BASE_URL format: Invalid protocol: must be http or https")

/-- The `setModel` method (`src/search.js` lines 46-50): the model field
is overwritten only when the argument is truthy (present and
non-empty). -/
def GeminiSearch.setModel (cfg : Config) (model : Option String) : Config :=
  match model with
  | some m => if m = "" then cfg else { cfg with model := m }
  | none => cfg

/-- A JSON value, as produced by the `JSON.parse` oracle. -/
inductive Json where
  | null
  | bool (b : Bool)
  | num (n : Int)
  | str (s : String)
  | arr (elems : List Json)
  | obj (fields : List (String × Json))

/-- Field lookup in a parsed JSON object. -/
def jsonFieldsLookup : List (String × Json) → String → Option Json
  | [], _ => none
  | (k, v) :: rest, key => if k = key then some v else jsonFieldsLookup rest key

/-- JavaScript property access `v.key` on a parsed JSON value: an object
yields its field (or undefined), every non-null primitive and array
yields undefined.  Access on `null` throws; callers handle that case
separately. -/
def Json.lookupField : Json → String → Option Json
  | .obj fs, key => jsonFieldsLookup fs key
  | _, _ => none

/-- Whether a parsed JSON value is `null` (property access on it
throws a TypeError). -/
def Json.isNull : Json → Bool
  | .null => true
  | _ => false

/-- Whether a parsed value carries a `results` field that is an array
(`src/search.js` line 238: `parsed.results && Array.isArray(parsed.results)`;
an array is always truthy). -/
def hasResultsArr (v : Json) : Bool :=
  match v.lookupField ("results") with
  | some (.arr _) => true
  | _ => false

/-- The value a `search` call hands back to its caller: the raw text
(structured output not requested), the parsed JSON value (it carried a
`results` array), or the degrade-gracefully fallback object
`\x7b results, summary, error?, raw? \x7d` built at
`src/search.js` lines 240 and 245. -/
inductive SearchOutput where
  | rawText (t : Option String)
  | parsed (v : Json)
  | fallback (results : List Json) (summary : Option String)
      (errorMark : Option String) (raw : Option Json)

/-- Marker field of a search output (the `error` property of the
fallback object; absent on every other shape). -/
def SearchOutput.marker : SearchOutput → Option String
  | .fallback _ _ m _ => m
  | _ => none

/-- The structured-output decode of `search` (`src/search.js` lines
234-247).  `parseJson` abstracts `JSON.parse`; a parse failure, or the
`TypeError` from accessing `.results` on a parsed `null` (the property
access sits inside the same `try`), lands in the catch and produces the
`JSON_PARSE_ERROR` fallback.  A parsed value without a `results` array
produces the no-error fallback carrying the parsed value as `raw`.
`JSON.parse` applied to an absent content (`undefined`) also throws. -/
def decodeStructured (parseJson : String → Option Json) (text : Option String) : SearchOutput :=
  match text with
  | none => .fallback [] none (some ("JSON_PARSE_ERROR")) none
  | some t =>
    match parseJson t with
    | none => .fallback [] (some t) (some ("JSON_PARSE_ERROR")) none
    | some v =>
      if v.isNull then .fallback [] (some t) (some ("JSON_PARSE_ERROR")) none
      else if hasResultsArr v then .parsed v
      else .fallback [] (some t) none (some v)

/-- The `numResults` argument as seen through JavaScript `parseInt`:
an input on which `parseInt` yields the integer `n`, an input on which
it yields `NaN`, or an omitted input (the destructuring default 10
applies first). -/
inductive NumResultsInput where
  | int (n : Int)
  | nonNumeric
  | absent

/-- The core validation of `numResults` in `GeminiSearch.search`
(`src/search.js` line 221):
`Math.max(1, Math.min(100, parseInt(numResults) || 10))`; note that a
parsed 0 is falsy and therefore also defaults to 10. -/
def coreValidatedNumResults (i : NumResultsInput) : Int :=
  match i with
  | .absent => 10
  | .nonNumeric => 10
  | .int n => max 1 (min 100 (if n = 0 then 10 else n))

/-- The tool directive of the outbound request; `search` always sends
`[ \x7b google_search: \x7b\x7d \x7d ]`. -/
inductive Tool where
  | googleSearch

/-- The response-format directive: `\x7b type: "json_object" \x7d`. -/
inductive RespFormat where
  | jsonObject

/-- Fixed text blocks of `buildSearchPrompt`
(`src/search.js` lines 300-326). -/
def searchSchemaText : String :=
  " 请以 JSON 格式返回结果。响应必须是一个合法的 JSON 对象，不要包含 markdown 代码块标记。\n结构如下：\n\x7b\n  \"results\": [\n    \x7b\n      \"title\": \"网页标题\",\n      \"snippet\": \"内容摘要\",\n      \"url\": \"网址\",\n      \"source\": \"来源网站\"\n    \x7d\n  ],\n  \"summary\": \"对所有结果的简明总结\"\n\x7d"

/-- Plain-format closing text of `buildSearchPrompt`. -/
def searchPlainText : String :=
  " 请以清晰的格式列出搜索结果，包括标题、摘要和来源。"

/-- The `buildSearchPrompt` method (`src/search.js` lines 300-326). -/
def GeminiSearch.buildSearchPrompt (query : String) (numResults : Int)
    (timeRange : Option String) (json : Bool) : String :=
  let base := "请搜索\"" ++ query ++ "\"，返回约" ++ toString numResults ++ "个相关结果。"
  let base :=
    match timeRange with
    | some tr => base ++ " 时间范围限制：" ++ tr ++ "。"
    | none => base
  if json then base ++ searchSchemaText else base ++ searchPlainText

/-- Options object accepted by `GeminiSearch.search`; `none` fields are
omitted properties, whose destructuring defaults (10 and `true`)
apply. -/
structure SearchOptions where
  numResults : NumResultsInput
  timeRange : Option String
  json : Option Bool

/-- A `search` invocation together with what it sent on the wire. -/
structure SearchRun where
  sentPrompt : String
  sentTools : List Tool
  sentFormat : Option RespFormat
  requests : Nat
  delays : List Nat
  result : Except String SearchOutput

/-- The `search` method of `GeminiSearch` (`src/search.js` lines
214-254): clamp `numResults`, build the prompt, call `callGemini` with
the google_search tool and (by default) the json_object response
format, decode structured output with the degrade-gracefully fallback,
and wrap any pipeline error as `Search failed: ...`. -/
def GeminiSearch.search (cfg : Config) (backend : Nat → AttemptResult)
    (parseJson : String → Option Json) (query : String) (opts : SearchOptions) : SearchRun :=
  let validatedNumResults := coreValidatedNumResults opts.numResults
  let json := opts.json.getD true
  let prompt := GeminiSearch.buildSearchPrompt query validatedNumResults opts.timeRange json
  let fmt : Option RespFormat := if json then some .jsonObject else none
  let call := GeminiSearch.callGemini cfg backend
  let res : Except String SearchOutput :=
    match call.result with
    | .error e => .error ("Search failed: " ++ e)
    | .ok text =>
      if json then .ok (decodeStructured parseJson text)
      else .ok (.rawText text)
  ⟨prompt, [Tool.googleSearch], fmt, call.requests, call.delays, res⟩

/-- The object a successful `fetch` resolves to
(`src/search.js` lines 281-285). -/
structure FetchValue where
  url : String
  content : Option String
  timestamp : String

/-- A `fetch` invocation together with what it sent on the wire;
`sentPrompt` is `none` when validation failed before any request. -/
structure FetchRun where
  sentPrompt : Option String
  requests : Nat
  delays : List Nat
  result : Except String FetchValue

/-- The `fetch` method of `GeminiSearch` (`src/search.js` lines
262-294): validate the URL via the platform URL parser (`urlOk`) before
anything is sent, build the instruction, call `callGemini` with no tool
directive, and wrap errors as `Fetch failed: ...`.  `now` abstracts
`new Date().toISOString()`. -/
def GeminiSearch.fetch (cfg : Config) (backend : Nat → AttemptResult)
    (urlOk : String → Bool) (now : String) (url : String) (prompt : String) : FetchRun :=
  if urlOk url then
    let fullPrompt :=
      if prompt = "" then "Please fetch and summarize the content from " ++ url
      else "Please fetch and analyze the content from " ++ url ++ ". Task: " ++ prompt
    let call := GeminiSearch.callGemini cfg backend
    match call.result with
    | .error e => ⟨some fullPrompt, call.requests, call.delays, .error ("Fetch failed: " ++ e)⟩
    | .ok text => ⟨some fullPrompt, call.requests, call.delays, .ok ⟨url, text, now⟩⟩
  else ⟨none, 0, [], .error ("Fetch failed: Invalid URL format: " ++ url)⟩

/-- The `numResults` validation of the dispatch layer
(`src/index.js` lines 132-136): `parseInt` the value (destructuring
default 10 first) and throw unless it is a number in [1, 100]. -/
def skillValidateNumResults (i : NumResultsInput) : Except String Int :=
  match i with
  | .absent => .ok 10
  | .nonNumeric => .error ("numResults must be a number between 1 and 100")
  | .int n =>
    if n < 1 ∨ 100 < n then .error ("numResults must be a number between 1 and 100")
    else .ok n

/-- Parameters of the dispatch-layer `search`
(`src/index.js` line 112). -/
structure SkillSearchParams where
  query : Option String
  numResults : NumResultsInput
  timeRange : Option String
  json : Option Bool

/-- The object a successful dispatch-layer `search` resolves to
(`src/index.js` lines 144-151). -/
structure SkillSearchValue where
  query : String
  numResults : Int
  timeRange : Option String
  results : SearchOutput

/-- A dispatch-layer `search` invocation: outbound request count and the
result or thrown message. -/
structure SkillSearchRun where
  requests : Nat
  result : Except String SkillSearchValue

/-- Whitespace recognition for JavaScript `String.prototype.trim`
(restricted to the ASCII whitespace characters that can appear in the
embedding). -/
def isJsSpace (c : Char) : Bool :=
  c = ' ' || c = '\t' || c = '\n' || c = '\r'

/-- JavaScript `String.prototype.trim`: strip leading and trailing
whitespace. -/
def jsTrim (s : String) : String :=
  String.mk (((s.data.dropWhile isJsSpace).reverse.dropWhile isJsSpace).reverse)

/-- The `search` method of `GeminiSearchSkill` (`src/index.js` lines
111-152): validate the query (present, non-empty after trimming, at
most 1000 characters) and `numResults` (throwing when out of range or
non-numeric), then delegate to the engine with the validated values. -/
def GeminiSearchSkill.search (cfg : Config) (backend : Nat → AttemptResult)
    (parseJson : String → Option Json) (p : SkillSearchParams) : SkillSearchRun :=
  match p.query with
  | none => ⟨0, .error ("Query parameter is required for search")⟩
  | some q =>
    if q = "" then ⟨0, .error ("Query parameter is required for search")⟩
    else
      let trimmedQuery := jsTrim q
      if trimmedQuery = "" then ⟨0, .error ("Query cannot be empty")⟩
      else if 1000 < trimmedQuery.length then ⟨0, .error ("Query too long (max 1000 characters)")⟩
      else
        match skillValidateNumResults p.numResults with
        | .error e => ⟨0, .error e⟩
        | .ok v =>
          let run := GeminiSearch.search cfg backend parseJson trimmedQuery
            ⟨.int v, p.timeRange, some (p.json.getD true)⟩
          match run.result with
          | .error e => ⟨run.requests, .error e⟩
          | .ok out => ⟨run.requests, .ok ⟨trimmedQuery, v, p.timeRange, out⟩⟩

/-- The `fetch` method of `GeminiSearchSkill` (`src/index.js` lines
158-185): require a URL, validate it via the platform URL parser and
bound the prompt length, all before delegating to the engine. -/
def GeminiSearchSkill.fetch (cfg : Config) (backend : Nat → AttemptResult)
    (urlOk : String → Bool) (now : String) (url : Option String) (prompt : String) : FetchRun :=
  match url with
  | none => ⟨none, 0, [], .error ("URL parameter is required for fetch")⟩
  | some u =>
    if u = "" then ⟨none, 0, [], .error ("URL parameter is required for fetch")⟩
    else if urlOk u = false then ⟨none, 0, [], .error ("Invalid URL format: " ++ u)⟩
    else if 2000 < prompt.length then ⟨none, 0, [], .error ("Prompt too long (max 2000 characters)")⟩
    else GeminiSearch.fetch cfg backend urlOk now u prompt

/-- Whether a 2xx JSON body passes the shape check of
`src/search.js` line 166: `choices` present, non-empty, and its first
element carries a `message` object (the `content` field is not
checked). -/
def shapeOk (choices : Option (List ChatChoice)) : Bool :=
  match choices with
  | some (c :: _) => c.message.isSome
  | _ => false

/-- The value `data.choices[0].message.content` returned on success. -/
def firstContent (choices : Option (List ChatChoice)) : Option String :=
  match choices with
  | some (c :: _) =>
    match c.message with
    | some m => m.content
    | none => none
  | _ => none

lemma tryBlock_status_429 (st : String) (b : ChatBody) :
    tryBlock (.response 429 st b) = .retryableStatus rateMsg := by
  simp only [tryBlock]
  rw [if_neg (by omega), if_neg (by omega)]
  simp

lemma tryBlock_status_5xx (s : Nat) (st : String) (b : ChatBody) (h5 : 500 ≤ s) :
    tryBlock (.response s st b) = .retryableStatus (statusMsg s st) := by
  simp only [tryBlock]
  rw [if_neg (by omega), if_neg (by omega), if_neg (by omega), if_pos h5]

lemma tryBlock_status_401 (st : String) (b : ChatBody) :
    tryBlock (.response 401 st b) = .thrown (mkError authMsg) := by
  simp only [tryBlock]
  rw [if_neg (by omega)]
  simp

lemma tryBlock_ok_shape (s : Nat) (st : String) (choices : Option (List ChatChoice))
    (hok : 200 ≤ s ∧ s < 300) :
    tryBlock (.response s st (.data choices)) =
      (if shapeOk choices then .success (firstContent choices)
       else .thrown (mkError invalidFormatMsg)) := by
  simp only [tryBlock, if_pos hok]
  match choices with
  | none => rfl
  | some [] => rfl
  | some (c :: rest) =>
    match hm : c.message with
    | some m => simp [shapeOk, firstContent, hm]
    | none => simp [shapeOk, firstContent, hm]

lemma callGeminiAux_success (cfg : Config) (backend : Nat → AttemptResult)
    (attempt fuel : Nat) (v : Option String)
    (ht : tryBlock (backend attempt) = .success v) :
    callGeminiAux cfg backend attempt fuel = ⟨.ok v, 1, []⟩ := by
  have hsd : stepDecision cfg (tryBlock (backend attempt)) attempt = .finish (.ok v) := by
    rw [ht]
    rfl
  rw [callGeminiAux.eq_def, hsd]

lemma callGeminiAux_thrown_nonretryable (cfg : Config) (backend : Nat → AttemptResult)
    (attempt fuel : Nat) (e : JsError)
    (ht : tryBlock (backend attempt) = .thrown e)
    (hab : ¬ e.name = "AbortError")
    (hnet : isNetworkRetryable e = false) :
    callGeminiAux cfg backend attempt fuel = ⟨.error e.message, 1, []⟩ := by
  have hsd : stepDecision cfg (tryBlock (backend attempt)) attempt = .finish (.error e.message) := by
    rw [ht]
    simp [stepDecision, hab, hnet]
  rw [callGeminiAux.eq_def, hsd]

lemma callGeminiAux_retryStatus_retry (cfg : Config) (backend : Nat → AttemptResult)
    (attempt fuel : Nat) (em : String)
    (ht : tryBlock (backend attempt) = .retryableStatus em)
    (hlt : attempt < cfg.retryAttempts) :
    callGeminiAux cfg backend attempt (fuel + 1) =
      ⟨(callGeminiAux cfg backend (attempt + 1) fuel).result,
       (callGeminiAux cfg backend (attempt + 1) fuel).requests + 1,
       backoffDelay cfg attempt :: (callGeminiAux cfg backend (attempt + 1) fuel).delays⟩ := by
  have hsd : stepDecision cfg (tryBlock (backend attempt)) attempt = .retry (.error em) := by
    rw [ht]
    simp [stepDecision, hlt]
  rw [callGeminiAux.eq_def, hsd]

lemma callGeminiAux_retryStatus_exhaust (cfg : Config) (backend : Nat → AttemptResult)
    (attempt fuel : Nat) (em : String)
    (ht : tryBlock (backend attempt) = .retryableStatus em)
    (hge : ¬ attempt < cfg.retryAttempts) :
    callGeminiAux cfg backend attempt fuel = ⟨.error em, 1, []⟩ := by
  have hsd : stepDecision cfg (tryBlock (backend attempt)) attempt = .finish (.error em) := by
    rw [ht]
    simp [stepDecision, hge]
  rw [callGeminiAux.eq_def, hsd]

lemma callGeminiAux_thrown_retry (cfg : Config) (backend : Nat → AttemptResult)
    (attempt fuel : Nat) (e : JsError)
    (ht : tryBlock (backend attempt) = .thrown e)
    (he : e.name = "AbortError" ∨ isNetworkRetryable e = true)
    (hlt : attempt < cfg.retryAttempts) :
    callGeminiAux cfg backend attempt (fuel + 1) =
      ⟨(callGeminiAux cfg backend (attempt + 1) fuel).result,
       (callGeminiAux cfg backend (attempt + 1) fuel).requests + 1,
       backoffDelay cfg attempt :: (callGeminiAux cfg backend (attempt + 1) fuel).delays⟩ := by
  rcases he with hab | hnet
  · have hsd : stepDecision cfg (tryBlock (backend attempt)) attempt
        = .retry (.error (timeoutExhaustMsg cfg)) := by
      rw [ht]
      simp [stepDecision, hab, hlt]
    rw [callGeminiAux.eq_def, hsd]
  · by_cases hab : e.name = "AbortError"
    · have hsd : stepDecision cfg (tryBlock (backend attempt)) attempt
          = .retry (.error (timeoutExhaustMsg cfg)) := by
        rw [ht]
        simp [stepDecision, hab, hlt]
      rw [callGeminiAux.eq_def, hsd]
    · have hsd : stepDecision cfg (tryBlock (backend attempt)) attempt
          = .retry (.error e.message) := by
        rw [ht]
        simp [stepDecision, hab, hnet, hlt]
      rw [callGeminiAux.eq_def, hsd]

lemma callGeminiAux_thrown_exhaust (cfg : Config) (backend : Nat → AttemptResult)
    (attempt fuel : Nat) (e : JsError)
    (ht : tryBlock (backend attempt) = .thrown e)
    (he : e.name = "AbortError" ∨ isNetworkRetryable e = true)
    (hge : ¬ attempt < cfg.retryAttempts) :
    callGeminiAux cfg backend attempt fuel =
      ⟨.error (if e.name = "AbortError" then timeoutExhaustMsg cfg else e.message), 1, []⟩ := by
  by_cases hab : e.name = "AbortError"
  · have hsd : stepDecision cfg (tryBlock (backend attempt)) attempt
        = .finish (.error (timeoutExhaustMsg cfg)) := by
      rw [ht]
      simp [stepDecision, hab, hge]
    rw [callGeminiAux.eq_def, hsd, if_pos hab]
  · rcases he with h | hnet
    · exact absurd h hab
    · have hsd : stepDecision cfg (tryBlock (backend attempt)) attempt
          = .finish (.error e.message) := by
        rw [ht]
        simp [stepDecision, hab, hnet, hge]
      rw [callGeminiAux.eq_def, hsd, if_neg hab]

/-- One retry step, phrased over the four retryable failure
categories. -/
lemma callGeminiAux_retry_step (cfg : Config) (backend : Nat → AttemptResult)
    (attempt fuel : Nat)
    (hr : retryableFailure (backend attempt) = true)
    (hlt : attempt < cfg.retryAttempts) :
    callGeminiAux cfg backend attempt (fuel + 1) =
      ⟨(callGeminiAux cfg backend (attempt + 1) fuel).result,
       (callGeminiAux cfg backend (attempt + 1) fuel).requests + 1,
       backoffDelay cfg attempt :: (callGeminiAux cfg backend (attempt + 1) fuel).delays⟩ := by
  cases hb : backend attempt with
  | throws e =>
    have ht : tryBlock (backend attempt) = .thrown e := by rw [hb]; rfl
    rw [hb] at hr
    simp only [retryableFailure, Bool.or_eq_true, beq_iff_eq] at hr
    exact callGeminiAux_thrown_retry cfg backend attempt fuel e ht hr hlt
  | response s st b =>
    rw [hb] at hr
    simp only [retryableFailure, Bool.or_eq_true, Bool.and_eq_true, beq_iff_eq,
      decide_eq_true_eq] at hr
    rcases hr with h429 | ⟨h5, _⟩
    · subst h429
      have ht : tryBlock (backend attempt) = .retryableStatus rateMsg := by
        rw [hb]; exact tryBlock_status_429 st b
      exact callGeminiAux_retryStatus_retry cfg backend attempt fuel _ ht hlt
    · have ht : tryBlock (backend attempt) = .retryableStatus (statusMsg s st) := by
        rw [hb]; exact tryBlock_status_5xx s st b h5
      exact callGeminiAux_retryStatus_retry cfg backend attempt fuel _ ht hlt

/-- Exhaustion at the final attempt, phrased over the four retryable
failure categories, with the classified message of `exhaustMsgOf`. -/
lemma callGeminiAux_exhaust_last (cfg : Config) (backend : Nat → AttemptResult)
    (attempt fuel : Nat)
    (hr : retryableFailure (backend attempt) = true)
    (hge : cfg.retryAttempts ≤ attempt) :
    callGeminiAux cfg backend attempt fuel =
      ⟨.error (exhaustMsgOf cfg (backend attempt)), 1, []⟩ := by
  have hnlt : ¬ attempt < cfg.retryAttempts := by omega
  cases hb : backend attempt with
  | throws e =>
    have ht : tryBlock (backend attempt) = .thrown e := by rw [hb]; rfl
    rw [hb] at hr
    simp only [retryableFailure, Bool.or_eq_true, beq_iff_eq] at hr
    rw [callGeminiAux_thrown_exhaust cfg backend attempt fuel e ht hr hnlt]
    rfl
  | response s st b =>
    rw [hb] at hr
    simp only [retryableFailure, Bool.or_eq_true, Bool.and_eq_true, beq_iff_eq,
      decide_eq_true_eq] at hr
    rcases hr with h429 | ⟨h5, _⟩
    · subst h429
      have ht : tryBlock (backend attempt) = .retryableStatus rateMsg := by
        rw [hb]; exact tryBlock_status_429 st b
      rw [callGeminiAux_retryStatus_exhaust cfg backend attempt fuel _ ht hnlt]
      simp [exhaustMsgOf]
    · have ht : tryBlock (backend attempt) = .retryableStatus (statusMsg s st) := by
        rw [hb]; exact tryBlock_status_5xx s st b h5
      rw [callGeminiAux_retryStatus_exhaust cfg backend attempt fuel _ ht hnlt]
      have h429 : ¬ s = 429 := by omega
      simp [exhaustMsgOf, h429]

/-- A run in which every attempt up to the limit fails retryably
exhausts the limit: it makes `retryAttempts - attempt + 1` requests,
inserts the exponential backoff delays, and fails with the classified
message of the final attempt. -/
lemma callGeminiAux_exhaust_run (cfg : Config) (backend : Nat → AttemptResult)
    (hAll : ∀ k, 1 ≤ k → k ≤ cfg.retryAttempts → retryableFailure (backend k) = true) :
    ∀ fuel attempt, 1 ≤ attempt → attempt ≤ cfg.retryAttempts →
      cfg.retryAttempts ≤ attempt + fuel →
      callGeminiAux cfg backend attempt fuel =
        ⟨.error (exhaustMsgOf cfg (backend cfg.retryAttempts)),
         cfg.retryAttempts - attempt + 1,
         (List.range (cfg.retryAttempts - attempt)).map
           (fun i => backoffDelay cfg (attempt + i))⟩ := by
  intro fuel
  induction fuel with
  | zero =>
    intro attempt h1 hle hge
    have heq : attempt = cfg.retryAttempts := by omega
    rw [callGeminiAux_exhaust_last cfg backend attempt 0
      (hAll attempt h1 hle) (by omega)]
    rw [heq]
    simp
  | succ fnext ih =>
    intro attempt h1 hle hge
    by_cases hlt : attempt < cfg.retryAttempts
    · rw [callGeminiAux_retry_step cfg backend attempt fnext
        (hAll attempt h1 hle) hlt]
      rw [ih (attempt + 1) (by omega) (by omega) (by omega)]
      have hco : cfg.retryAttempts - attempt = (cfg.retryAttempts - (attempt + 1)) + 1 := by
        omega
      dsimp only
      congr 1
      · omega
      · rw [hco, List.range_succ_eq_map, List.map_cons, List.map_map]
        refine congrArg₂ List.cons ?_ ?_
        · simp [backoffDelay]
        · refine List.map_congr_left ?_
          intro i _
          simp only [Function.comp_apply]
          congr 1
          omega
    · have heq : attempt = cfg.retryAttempts := by omega
      rw [callGeminiAux_exhaust_last cfg backend attempt (fnext + 1)
        (hAll attempt h1 hle) (by omega)]
      rw [heq]
      simp

/-- Helper: unpacking a successful construction into its stored fields. -/
lemma mk_ok_config (pp : String → Except String String) (u k : String)
    (opts : CtorOptions) (c : Config)
    (h : GeminiSearch.mk pp u k opts = .ok c) :
    c = ⟨stripTrailingSlash u, k, jsOrStr opts.model ("gemini-2.5-flash-lite"),
         jsOrNat opts.timeout 30000, jsOrNat opts.retryAttempts 3,
         jsOrNat opts.retryDelay 1000⟩ := by
  unfold GeminiSearch.mk at h
  split at h
  · exact absurd h (by simp)
  · split at h
    · exact absurd h (by simp)
    · split at h
      · exact absurd h (by simp)
      · split at h
        · injection h with h2
          exact h2.symm
        · exact absurd h (by simp)

/-- Example configuration used by the concrete witnesses: the defaults
of the constructor with base `https://host` and key `key`. -/
def cfgEx : Config := ⟨"https://host", "key", "gemini-2.5-flash-lite", 30000, 3, 1000⟩

/-- A backend that answers HTTP 500 on every attempt. -/
def backend500 : Nat → AttemptResult :=
  fun _ => .response 500 ("Internal Server Error") (.data none)

/-- A backend that times out (AbortError) on every attempt. -/
def backendTimeoutEx : Nat → AttemptResult :=
  fun _ => .throws ⟨"AbortError", "This operation was aborted", none⟩

/-- A backend that answers HTTP 401 on every attempt. -/
def backend401 : Nat → AttemptResult :=
  fun _ => .response 401 ("Unauthorized") (.data none)

/-- A backend that answers HTTP 200 with an empty `choices` array. -/
def backendOkEmpty : Nat → AttemptResult :=
  fun _ => .response 200 ("OK") (.data (some []))

/-- A backend that answers HTTP 200 with one choice whose message
carries no `content` field. -/
def backendOkNoContent : Nat → AttemptResult :=
  fun _ => .response 200 ("OK") (.data (some [⟨some ⟨none⟩⟩]))

/-- A backend that answers HTTP 200 with one choice carrying `t`. -/
def backendOkText (t : String) : Nat → AttemptResult :=
  fun _ => .response 200 ("OK") (.data (some [⟨some ⟨some t⟩⟩]))

/-- C1: for every call to `callGemini`, a failed attempt whose failure
is a request timeout, a transport/network failure, an HTTP 5xx status,
or an HTTP 429 status is retried while the attempt number is below the
configured maximum (default 3, as the constructor default shows), and
the delay inserted before attempt `n+1` equals
`retryDelay * 2 ^ (n - 1)`, deterministically (no jitter); at or above
the maximum no further request or delay occurs. -/
theorem callGemini_retry_backoff_policy (cfg : Config) (backend : Nat → AttemptResult)
    (attempt fuel : Nat)
    (hr : retryableFailure (backend attempt) = true) :
    (attempt < cfg.retryAttempts →
      callGeminiAux cfg backend attempt (fuel + 1) =
        ⟨(callGeminiAux cfg backend (attempt + 1) fuel).result,
         (callGeminiAux cfg backend (attempt + 1) fuel).requests + 1,
         cfg.retryDelay * 2 ^ (attempt - 1) ::
           (callGeminiAux cfg backend (attempt + 1) fuel).delays⟩) ∧
    (cfg.retryAttempts ≤ attempt →
      (callGeminiAux cfg backend attempt fuel).requests = 1 ∧
      (callGeminiAux cfg backend attempt fuel).delays = []) ∧
    (∀ pp u k m t d c, GeminiSearch.mk pp u k ⟨m, t, none, d⟩ = .ok c →
      c.retryAttempts = 3) := by
  refine ⟨?_, ?_, ?_⟩
  · intro hlt
    exact callGeminiAux_retry_step cfg backend attempt fuel hr hlt
  · intro hge
    rw [callGeminiAux_exhaust_last cfg backend attempt fuel hr hge]
    exact ⟨rfl, rfl⟩
  · intro pp u k m t d c hmk
    rw [mk_ok_config pp u k ⟨m, t, none, d⟩ c hmk]
    rfl

/-- Witness for C1 at the all-500 backend: attempt 1 retries with delay
`1000 * 2 ^ 0`, and at the maximum (attempt 3) no retry happens;
a default-constructed client has `retryAttempts = 3`. -/
theorem callGemini_retry_backoff_policy_witness :
    (callGeminiAux cfgEx backend500 1 2 =
      ⟨(callGeminiAux cfgEx backend500 2 1).result,
       (callGeminiAux cfgEx backend500 2 1).requests + 1,
       cfgEx.retryDelay * 2 ^ (1 - 1) :: (callGeminiAux cfgEx backend500 2 1).delays⟩) ∧
    ((callGeminiAux cfgEx backend500 3 0).requests = 1 ∧
     (callGeminiAux cfgEx backend500 3 0).delays = []) ∧
    cfgEx.retryAttempts = 3 :=
  ⟨(callGemini_retry_backoff_policy cfgEx backend500 1 1 (by decide)).1 (by decide),
   (callGemini_retry_backoff_policy cfgEx backend500 3 0 (by decide)).2.1 (by decide),
   (callGemini_retry_backoff_policy cfgEx backend500 1 0 (by decide)).2.2
     (fun _ => .ok ("https:")) ("https://host") ("key") none none none cfgEx rfl⟩

/-- C2 (amended): when every attempt up to the configured limit fails
retryably, `callGemini` makes exactly `retryAttempts` requests and
fails with the classified message of the final attempt; per
`exhaustMsgOf`, the message names the cause (timeout vs. network vs.
status code), but only the timeout case also names the attempt
count. -/
theorem callGemini_exhaust_classified (cfg : Config) (backend : Nat → AttemptResult)
    (h1 : 1 ≤ cfg.retryAttempts)
    (hAll : ∀ k, 1 ≤ k → k ≤ cfg.retryAttempts → retryableFailure (backend k) = true) :
    (GeminiSearch.callGemini cfg backend).requests = cfg.retryAttempts ∧
    (GeminiSearch.callGemini cfg backend).result =
      .error (exhaustMsgOf cfg (backend cfg.retryAttempts)) := by
  have h := callGeminiAux_exhaust_run cfg backend hAll cfg.retryAttempts 1 le_rfl h1 (by omega)
  unfold GeminiSearch.callGemini
  rw [h]
  refine ⟨?_, rfl⟩
  dsimp only
  omega

/-- Witness for C2 at the always-timeout backend: the default client
makes exactly 3 requests and fails with the timeout-classified
message, which names the timeout and the attempt count. -/
theorem callGemini_exhaust_classified_witness :
    ((GeminiSearch.callGemini cfgEx backendTimeoutEx).requests = cfgEx.retryAttempts ∧
     (GeminiSearch.callGemini cfgEx backendTimeoutEx).result =
       .error (exhaustMsgOf cfgEx (backendTimeoutEx cfgEx.retryAttempts))) ∧
    exhaustMsgOf cfgEx (backendTimeoutEx cfgEx.retryAttempts) =
      "Request timeout after 30000ms and 3 attempts" :=
  ⟨callGemini_exhaust_classified cfgEx backendTimeoutEx (by decide)
     (fun _ _ _ => rfl), rfl⟩

/-- Counterexample to C2 as stated: on a backend that answers HTTP 500
on all three attempts of a default client, the terminal failure names
the status code but not the attempt count (the message contains neither
`attempt` nor the digit 3). -/
theorem callGemini_exhaust_count_counterexample :
    (GeminiSearch.callGemini cfgEx backend500).result =
      .error ("API request failed with status 500: Internal Server Error") ∧
    (GeminiSearch.callGemini cfgEx backend500).requests = 3 ∧
    (GeminiSearch.callGemini cfgEx backend500).delays = [1000, 2000] ∧
    strIncludes ("API request failed with status 500: Internal Server Error") ("attempt") = false ∧
    strIncludes ("API request failed with status 500: Internal Server Error") ("3") = false :=
  ⟨rfl, rfl, rfl, by decide, by decide⟩

/-- C3: an HTTP 401 response, and an HTTP-success response whose JSON
body lacks the expected choices/message shape, fail on the very first
attempt with no retry: exactly one outbound request and no delays, for
every configuration. -/
theorem callGemini_nonretryable_immediate (cfg : Config) (backend : Nat → AttemptResult) :
    (∀ stText b, backend 1 = .response 401 stText b →
      GeminiSearch.callGemini cfg backend = ⟨.error authMsg, 1, []⟩) ∧
    (∀ status stText choices, 200 ≤ status → status < 300 → shapeOk choices = false →
      backend 1 = .response status stText (.data choices) →
      GeminiSearch.callGemini cfg backend = ⟨.error invalidFormatMsg, 1, []⟩) := by
  constructor
  · intro st b hb
    have ht : tryBlock (backend 1) = .thrown (mkError authMsg) := by
      rw [hb]
      exact tryBlock_status_401 st b
    exact callGeminiAux_thrown_nonretryable cfg backend 1 cfg.retryAttempts _ ht
      (by decide) (by decide)
  · intro s st choices h2l h2r hsh hb
    have ht : tryBlock (backend 1) = .thrown (mkError invalidFormatMsg) := by
      rw [hb, tryBlock_ok_shape s st choices ⟨h2l, h2r⟩, hsh]
      simp
    exact callGeminiAux_thrown_nonretryable cfg backend 1 cfg.retryAttempts _ ht
      (by decide) (by decide)

/-- Witness for C3: an always-401 backend yields exactly one request
and the credential error; a 200 response with empty `choices` yields
exactly one request and the shape error. -/
theorem callGemini_nonretryable_immediate_witness :
    GeminiSearch.callGemini cfgEx backend401 = ⟨.error authMsg, 1, []⟩ ∧
    GeminiSearch.callGemini cfgEx backendOkEmpty = ⟨.error invalidFormatMsg, 1, []⟩ :=
  ⟨(callGemini_nonretryable_immediate cfgEx backend401).1 ("Unauthorized") (.data none) rfl,
   (callGemini_nonretryable_immediate cfgEx backendOkEmpty).2 200 ("OK") (some [])
     (by decide) (by decide) (by decide) rfl⟩

/-- C4 (amended): on a first-attempt 2xx response with a JSON body, the
call succeeds exactly when the body carries at least one choice whose
first element has a `message` object, returning
`choices[0].message.content` (which may be absent, since `content` is
never validated); otherwise it is the terminal response-shape error
after exactly one request. -/
theorem callGemini_success_shape (cfg : Config) (backend : Nat → AttemptResult)
    (status : Nat) (stText : String) (choices : Option (List ChatChoice))
    (hb : backend 1 = .response status stText (.data choices))
    (hok : 200 ≤ status ∧ status < 300) :
    (shapeOk choices = true →
      GeminiSearch.callGemini cfg backend = ⟨.ok (firstContent choices), 1, []⟩) ∧
    (shapeOk choices = false →
      GeminiSearch.callGemini cfg backend = ⟨.error invalidFormatMsg, 1, []⟩) := by
  constructor
  · intro hsh
    have ht : tryBlock (backend 1) = .success (firstContent choices) := by
      rw [hb, tryBlock_ok_shape status stText choices hok, if_pos hsh]
    exact callGeminiAux_success cfg backend 1 cfg.retryAttempts _ ht
  · intro hsh
    have ht : tryBlock (backend 1) = .thrown (mkError invalidFormatMsg) := by
      rw [hb, tryBlock_ok_shape status stText choices hok, hsh]
      simp
    exact callGeminiAux_thrown_nonretryable cfg backend 1 cfg.retryAttempts _ ht
      (by decide) (by decide)

/-- Witness for C4: a 200 response with one choice carrying content
`hi` succeeds with that content after one request. -/
theorem callGemini_success_shape_witness :
    GeminiSearch.callGemini cfgEx (backendOkText ("hi")) = ⟨.ok (some ("hi")), 1, []⟩ :=
  (callGemini_success_shape cfgEx (backendOkText ("hi")) 200 ("OK")
    (some [⟨some ⟨some ("hi")⟩⟩]) rfl (by decide)).1 (by decide)

/-- Counterexample to C4 as stated: a 2xx body whose only choice has a
message without textual content is NOT a response-shape error — the
call succeeds, returning the absent content. -/
theorem callGemini_content_not_required_counterexample :
    GeminiSearch.callGemini cfgEx backendOkNoContent = ⟨.ok none, 1, []⟩ ∧
    firstContent (some [⟨some ⟨none⟩⟩]) = none :=
  ⟨rfl, rfl⟩

/-- A JSON-parse oracle that fails on every input (a backend text that
is not valid JSON). -/
def pjNone : String → Option Json := fun _ => none

/-- A JSON-parse oracle mapping the text `obj` to the empty JSON
object (valid JSON with no `results` field). -/
def pjObjEx : String → Option Json :=
  fun t => if t = "obj" then some (Json.obj []) else none

/-- Structured decoding never yields the raw-text shape. -/
lemma decodeStructured_not_raw (pj : String → Option Json) (t : Option String)
    (x : Option String) : decodeStructured pj t ≠ .rawText x := by
  cases t with
  | none => simp [decodeStructured]
  | some s =>
    cases hps : pj s with
    | none => simp [decodeStructured, hps]
    | some v =>
      simp only [decodeStructured, hps]
      split_ifs <;> simp

/-- C5 (amended): for a structured search whose pipeline call returned
text `s`, the call never raises; if `s` fails to parse (or parses to
`null`, whose property access throws) the fallback carries empty
results, the raw text as summary, and the `JSON_PARSE_ERROR` marker; if
`s` parses but lacks a `results` array the fallback carries empty
results, the raw text as summary, and the parsed value as `raw` — with
no error marker. -/
theorem search_structured_fallback (cfg : Config) (backend : Nat → AttemptResult)
    (pj : String → Option Json) (query : String) (opts : SearchOptions) (s : String)
    (hjson : opts.json.getD true = true)
    (hok : (GeminiSearch.callGemini cfg backend).result = .ok (some s)) :
    (∀ e, (GeminiSearch.search cfg backend pj query opts).result ≠ .error e) ∧
    (pj s = none →
      (GeminiSearch.search cfg backend pj query opts).result =
        .ok (.fallback [] (some s) (some ("JSON_PARSE_ERROR")) none)) ∧
    (∀ v, pj s = some v → v.isNull = true →
      (GeminiSearch.search cfg backend pj query opts).result =
        .ok (.fallback [] (some s) (some ("JSON_PARSE_ERROR")) none)) ∧
    (∀ v, pj s = some v → v.isNull = false → hasResultsArr v = false →
      (GeminiSearch.search cfg backend pj query opts).result =
        .ok (.fallback [] (some s) none (some v))) := by
  have hres : (GeminiSearch.search cfg backend pj query opts).result
      = .ok (decodeStructured pj (some s)) := by
    simp [GeminiSearch.search, hok, hjson]
  refine ⟨?_, ?_, ?_, ?_⟩
  · intro e
    rw [hres]
    simp
  · intro hp
    rw [hres]
    simp [decodeStructured, hp]
  · intro v hp hnull
    rw [hres]
    simp [decodeStructured, hp, hnull]
  · intro v hp hnull hnores
    rw [hres]
    simp [decodeStructured, hp, hnull, hnores]

/-- Witness for C5: a backend text that no JSON parse accepts produces
the non-raising `JSON_PARSE_ERROR` fallback with the raw text as
summary. -/
theorem search_structured_fallback_witness :
    (GeminiSearch.search cfgEx (backendOkText ("notjson")) pjNone ("q")
        ⟨.absent, none, some true⟩).result =
      .ok (.fallback [] (some ("notjson")) (some ("JSON_PARSE_ERROR")) none) :=
  (search_structured_fallback cfgEx (backendOkText ("notjson")) pjNone ("q")
    ⟨.absent, none, some true⟩ ("notjson") rfl rfl).2.1 rfl

/-- Counterexample to C5 as stated: when the text parses but the value
lacks a `results` array, the fallback carries the parsed value under
`raw` and NO error marker. -/
theorem search_fallback_marker_counterexample :
    (GeminiSearch.search cfgEx (backendOkText ("obj")) pjObjEx ("q")
        ⟨.absent, none, some true⟩).result =
      .ok (.fallback [] (some ("obj")) none (some (Json.obj []))) ∧
    SearchOutput.marker (.fallback [] (some ("obj")) none (some (Json.obj []))) = none :=
  ⟨rfl, rfl⟩

/-- C6 (amended): the core `GeminiSearch.search` clamps or defaults
`numResults` — values above 100 clamp to 100, values below 1 (other
than the falsy 0) clamp to 1, 0 and non-numeric and omitted values
default to 10, in-range values pass through — and embeds the validated
value in the outbound prompt; the dispatch layer
(`GeminiSearchSkill.search`) instead rejects out-of-range or
non-numeric values with an error. -/
theorem numResults_clamp_or_reject (i : NumResultsInput) :
    (1 ≤ coreValidatedNumResults i ∧ coreValidatedNumResults i ≤ 100) ∧
    (∀ n, i = .int n → 100 < n → coreValidatedNumResults i = 100) ∧
    (∀ n, i = .int n → n < 1 → n ≠ 0 → coreValidatedNumResults i = 1) ∧
    (∀ n, i = .int n → n = 0 → coreValidatedNumResults i = 10) ∧
    (∀ n, i = .int n → 1 ≤ n → n ≤ 100 → coreValidatedNumResults i = n) ∧
    (i = .nonNumeric → coreValidatedNumResults i = 10) ∧
    (i = .absent → coreValidatedNumResults i = 10) ∧
    (∀ cfg backend pj query tr j,
      (GeminiSearch.search cfg backend pj query ⟨i, tr, j⟩).sentPrompt =
        GeminiSearch.buildSearchPrompt query (coreValidatedNumResults i) tr (j.getD true)) ∧
    (∀ n, i = .int n → (n < 1 ∨ 100 < n) →
      skillValidateNumResults i = .error ("numResults must be a number between 1 and 100")) ∧
    (i = .nonNumeric →
      skillValidateNumResults i = .error ("numResults must be a number between 1 and 100")) := by
  refine ⟨?_, ?_, ?_, ?_, ?_, ?_, ?_, ?_, ?_, ?_⟩
  · cases i with
    | int n =>
      simp only [coreValidatedNumResults, max_def, min_def]
      split_ifs <;> omega
    | nonNumeric => exact ⟨by decide, by decide⟩
    | absent => exact ⟨by decide, by decide⟩
  · rintro n rfl h
    simp only [coreValidatedNumResults, max_def, min_def]
    split_ifs <;> omega
  · rintro n rfl h hne
    simp only [coreValidatedNumResults, max_def, min_def]
    split_ifs <;> omega
  · rintro n rfl h
    simp only [coreValidatedNumResults, max_def, min_def]
    split_ifs <;> omega
  · rintro n rfl h1 h2
    simp only [coreValidatedNumResults, max_def, min_def]
    split_ifs <;> omega
  · rintro rfl
    rfl
  · rintro rfl
    rfl
  · intro cfg backend pj query tr j
    rfl
  · rintro n rfl h
    simp [skillValidateNumResults, h]
  · rintro rfl
    rfl

/-- Witness for C6: 150 clamps to 100 in the core and is rejected by
the dispatch layer; -5 clamps to 1; non-numeric defaults to 10. -/
theorem numResults_clamp_or_reject_witness :
    coreValidatedNumResults (.int 150) = 100 ∧
    coreValidatedNumResults (.int (-5)) = 1 ∧
    coreValidatedNumResults .nonNumeric = 10 ∧
    skillValidateNumResults (.int 150) =
      .error ("numResults must be a number between 1 and 100") := by
  obtain ⟨-, hhi, -, -, -, -, -, -, hrej, -⟩ := numResults_clamp_or_reject (.int 150)
  obtain ⟨-, -, hlo, -, -, -, -, -, -, -⟩ := numResults_clamp_or_reject (.int (-5))
  obtain ⟨-, -, -, -, -, hnn, -, -, -, -⟩ := numResults_clamp_or_reject .nonNumeric
  exact ⟨hhi 150 rfl (by norm_num), hlo (-5) rfl (by norm_num) (by norm_num),
    hnn rfl, hrej 150 rfl (by norm_num)⟩

/-- Counterexample to C6 as stated: `numResults = 150` passed to the
dispatch-layer `search` makes the call fail with zero outbound
requests instead of being clamped. -/
theorem skill_numResults_reject_counterexample :
    GeminiSearchSkill.search cfgEx backend500 pjNone
        ⟨some ("q"), .int 150, none, none⟩ =
      ⟨0, .error ("numResults must be a number between 1 and 100")⟩ := rfl

/-- C7: a url the platform URL parser rejects makes `fetch` fail before
any outbound request: zero requests, no delays, no prompt built, and
the wrapped invalid-URL error; the dispatch-layer `fetch` likewise
rejects it before delegating. -/
theorem fetch_invalid_url_no_request (cfg : Config) (backend : Nat → AttemptResult)
    (urlOk : String → Bool) (now url prompt : String)
    (hbad : urlOk url = false) :
    (GeminiSearch.fetch cfg backend urlOk now url prompt).requests = 0 ∧
    (GeminiSearch.fetch cfg backend urlOk now url prompt).delays = [] ∧
    (GeminiSearch.fetch cfg backend urlOk now url prompt).sentPrompt = none ∧
    (GeminiSearch.fetch cfg backend urlOk now url prompt).result =
      .error ("Fetch failed: Invalid URL format: " ++ url) ∧
    (∀ u p, u ≠ "" → urlOk u = false →
      GeminiSearchSkill.fetch cfg backend urlOk now (some u) p =
        ⟨none, 0, [], .error ("Invalid URL format: " ++ u)⟩) := by
  have h : GeminiSearch.fetch cfg backend urlOk now url prompt
      = ⟨none, 0, [], .error ("Fetch failed: Invalid URL format: " ++ url)⟩ := by
    simp [GeminiSearch.fetch, hbad]
  refine ⟨by rw [h], by rw [h], by rw [h], by rw [h], ?_⟩
  intro u p hne hbad2
  simp [GeminiSearchSkill.fetch, hne, hbad2]

/-- Witness for C7: with a URL parser that rejects everything, fetching
`not a url` makes zero requests and fails with the invalid-URL
error. -/
theorem fetch_invalid_url_no_request_witness :
    (GeminiSearch.fetch cfgEx backend500 (fun _ => false) ("2024-01-01T00:00:00.000Z")
        ("not a url") ("")).requests = 0 ∧
    (GeminiSearch.fetch cfgEx backend500 (fun _ => false) ("2024-01-01T00:00:00.000Z")
        ("not a url") ("")).result =
      .error ("Fetch failed: Invalid URL format: not a url") :=
  ⟨(fetch_invalid_url_no_request cfgEx backend500 (fun _ => false)
      ("2024-01-01T00:00:00.000Z") ("not a url") ("") rfl).1,
   (fetch_invalid_url_no_request cfgEx backend500 (fun _ => false)
      ("2024-01-01T00:00:00.000Z") ("not a url") ("") rfl).2.2.2.1⟩

lemma stripTrailingSlash_append_slash (s : String) :
    stripTrailingSlash (s ++ "/") = s := by
  unfold stripTrailingSlash
  have hd : (s ++ ("/" : String)).data = s.data ++ ['/'] := String.data_append s "/"
  rw [hd, List.getLast?_concat]
  dsimp only
  rw [if_pos rfl, List.dropLast_concat]

lemma stripTrailingSlash_no_slash (s : String) (h : s.data.getLast? ≠ some '/') :
    stripTrailingSlash s = s := by
  cases hg : s.data.getLast? with
  | none =>
    unfold stripTrailingSlash
    rw [hg]
  | some c =>
    have hc : ¬ c = '/' := by
      intro hc
      exact h (hc ▸ hg)
    unfold stripTrailingSlash
    rw [hg]
    dsimp only
    rw [if_neg hc]

/-- C8: constructing a client from a base address with one trailing
slash and from the same address without it stores the same normalized
base address (the address itself) and therefore targets the same
outbound request URL. -/
theorem baseUrl_trailing_slash_idem (pp : String → Except String String)
    (s key : String) (opts : CtorOptions) (c1 c2 : Config)
    (hns : s.data.getLast? ≠ some '/')
    (h1 : GeminiSearch.mk pp (s ++ "/") key opts = .ok c1)
    (h2 : GeminiSearch.mk pp s key opts = .ok c2) :
    c1.baseUrl = c2.baseUrl ∧ c1.baseUrl = s ∧ requestUrl c1 = requestUrl c2 := by
  have e1 := mk_ok_config pp (s ++ "/") key opts c1 h1
  have e2 := mk_ok_config pp s key opts c2 h2
  have hb1 : c1.baseUrl = stripTrailingSlash (s ++ "/") := by rw [e1]
  have hb2 : c2.baseUrl = stripTrailingSlash s := by rw [e2]
  have hs1 := stripTrailingSlash_append_slash s
  have hs2 := stripTrailingSlash_no_slash s hns
  refine ⟨?_, ?_, ?_⟩ <;> simp [requestUrl, hb1, hb2, hs1, hs2]

/-- An oracle standing for the platform URL parser on the example
base addresses: both parse with protocol `https:`. -/
def ppEx : String → Except String String := fun _ => .ok ("https:")

/-- Witness for C8: `https://host/` and `https://host` construct
clients with the same stored base address `https://host`. -/
theorem baseUrl_trailing_slash_idem_witness :
    cfgEx.baseUrl = cfgEx.baseUrl ∧ cfgEx.baseUrl = "https://host" ∧
    requestUrl cfgEx = requestUrl cfgEx :=
  baseUrl_trailing_slash_idem ppEx ("https://host") ("key") ⟨none, none, none, none⟩
    cfgEx cfgEx (by decide) rfl rfl

/-- C9: when the `json` option is omitted, structured output is the
default: the outbound request carries the `json_object` response-format
directive and the returned value is never the raw text. -/
theorem search_structured_default (cfg : Config) (backend : Nat → AttemptResult)
    (pj : String → Option Json) (query : String) (opts : SearchOptions)
    (hnone : opts.json = none) :
    (GeminiSearch.search cfg backend pj query opts).sentFormat =
      some RespFormat.jsonObject ∧
    (∀ t, (GeminiSearch.search cfg backend pj query opts).result ≠
      .ok (SearchOutput.rawText t)) := by
  constructor
  · simp [GeminiSearch.search, hnone]
  · intro t
    simp only [GeminiSearch.search, hnone, Option.getD, if_pos]
    cases hres : (GeminiSearch.callGemini cfg backend).result with
    | error e => simp [hres]
    | ok txt =>
      simp only [hres]
      intro hcontra
      simp only [if_pos trivial, Except.ok.injEq] at hcontra
      exact decodeStructured_not_raw pj txt t hcontra

/-- Witness for C9: with the json option omitted, the request carries
the json_object directive and the result is the decoded structure,
not raw text. -/
theorem search_structured_default_witness :
    (GeminiSearch.search cfgEx (backendOkText ("obj")) pjObjEx ("q")
        ⟨.absent, none, none⟩).sentFormat = some RespFormat.jsonObject ∧
    (GeminiSearch.search cfgEx (backendOkText ("obj")) pjObjEx ("q")
        ⟨.absent, none, none⟩).result ≠ .ok (SearchOutput.rawText (some ("obj"))) :=
  ⟨(search_structured_default cfgEx (backendOkText ("obj")) pjObjEx ("q")
      ⟨.absent, none, none⟩ rfl).1,
   (search_structured_default cfgEx (backendOkText ("obj")) pjObjEx ("q")
      ⟨.absent, none, none⟩ rfl).2 (some ("obj"))⟩

/-- C10: `setModel` changes at most the `model` field — base address,
key, timeout, retry count and retry delay are untouched — and a falsy
argument (absent or empty) leaves the whole configuration unchanged;
a truthy argument overwrites the model. -/
theorem setModel_frame (cfg : Config) (m : Option String) :
    ((GeminiSearch.setModel cfg m).baseUrl = cfg.baseUrl ∧
     (GeminiSearch.setModel cfg m).apiKey = cfg.apiKey ∧
     (GeminiSearch.setModel cfg m).timeout = cfg.timeout ∧
     (GeminiSearch.setModel cfg m).retryAttempts = cfg.retryAttempts ∧
     (GeminiSearch.setModel cfg m).retryDelay = cfg.retryDelay) ∧
    ((m = none ∨ m = some "") → GeminiSearch.setModel cfg m = cfg) ∧
    (∀ s, m = some s → s ≠ "" → (GeminiSearch.setModel cfg m).model = s) := by
  refine ⟨?_, ?_, ?_⟩
  · cases m with
    | none => simp [GeminiSearch.setModel]
    | some s =>
      by_cases h : s = "" <;> simp [GeminiSearch.setModel, h]
  · rintro (rfl | rfl) <;> simp [GeminiSearch.setModel]
  · rintro s rfl hne
    simp [GeminiSearch.setModel, hne]

/-- Witness for C10: overwriting the model of the example client keeps
every other field; `setModel` with `none` is the identity. -/
theorem setModel_frame_witness :
    (GeminiSearch.setModel cfgEx (some ("m2"))).baseUrl = cfgEx.baseUrl ∧
    GeminiSearch.setModel cfgEx none = cfgEx ∧
    (GeminiSearch.setModel cfgEx (some ("m2"))).model = "m2" :=
  ⟨(setModel_frame cfgEx (some ("m2"))).1.1,
   (setModel_frame cfgEx none).2.1 (Or.inl rfl),
   (setModel_frame cfgEx (some ("m2"))).2.2 ("m2") rfl (by decide)⟩
